import Mathlib

/-!
Shallow embedding of the poll-integrity core of the alx-polly repository
(server actions `createPoll`, `submitVote`, `deletePoll`, `updatePoll`
from `poll-actions.ts`, and the client-side anti-forgery token flow from
`PollCreateForm.tsx` / `login/page.tsx`).

The persistence layer (Supabase) is modelled as an in-memory state
(`DB`) threaded explicitly; each operation additionally takes a record
of fault flags saying which store calls fail, so that the error paths of
the source are represented faithfully.
-/

namespace AlxPolly

/-- Hex digit as accepted by the source's UUID regex (case-insensitive). -/
def isHexDig (c : Char) : Bool :=
  (48 ≤ c.toNat && c.toNat ≤ 57) || (97 ≤ c.toNat && c.toNat ≤ 102) ||
    (65 ≤ c.toNat && c.toNat ≤ 70)

/-- Consume exactly `n` hex digits from the front of the char list. -/
def hexRun : Nat → List Char → Option (List Char)
  | 0, cs => some cs
  | _ + 1, [] => none
  | n + 1, c :: cs => if isHexDig c then hexRun n cs else none

/-- Consume a literal dash. -/
def dashThen : List Char → Option (List Char)
  | '-' :: cs => some cs
  | _ => none

/-- The source's UUID regex `^[0-9a-f]{8}-[0-9a-f]{4}-[0-9a-f]{4}-[0-9a-f]{4}-[0-9a-f]{12}$/i`. -/
def isUuidString (s : String) : Bool :=
  match (hexRun 8 s.data).bind dashThen |>.bind (hexRun 4) |>.bind dashThen
      |>.bind (hexRun 4) |>.bind dashThen |>.bind (hexRun 4) |>.bind dashThen
      |>.bind (hexRun 12) with
  | some [] => true
  | _ => false

/-- JS `String.prototype.trim`: strip leading and trailing whitespace.
Implemented structurally over the character list so it is fully
computable. -/
def jsTrim (s : String) : String :=
  ⟨((s.data.dropWhile Char.isWhitespace).reverse.dropWhile
      Char.isWhitespace).reverse⟩

/-- A `FormDataEntryValue`: a string field or an uploaded file. -/
inductive FormVal
  | str : String → FormVal
  | file : FormVal
deriving DecidableEq

/-- The parts of a `FormData` the poll actions read. `question` is
`formData.get("question")` (possibly absent), `options` is
`formData.getAll("options")`. -/
structure FormData where
  question : Option String
  options : List FormVal
deriving DecidableEq

/-- `formData.getAll("options").map(opt => typeof opt === 'string' ? opt.trim() : '').filter(Boolean)`. -/
def normOptions (os : List FormVal) : List String :=
  (os.map fun o => match o with | .str s => jsTrim s | .file => "").filter
    (fun s => s != "")

/-- `!question || question.trim() === ''` (null, empty, or whitespace-only). -/
def badQuestion : Option String → Bool
  | none => true
  | some s => jsTrim s == ""

/-- A persisted poll row. -/
structure Poll where
  id : String
  user_id : String
  question : String
  options : List String
  created_at : String
deriving DecidableEq

/-- A persisted vote row. `user_id` is null for anonymous votes;
`option_index` is a JS number, so it may be fractional. -/
structure Vote where
  poll_id : String
  user_id : Option String
  option_index : ℚ
  created_at : String
deriving DecidableEq

/-- The store: the `polls` and `votes` tables. -/
structure DB where
  polls : List Poll
  votes : List Vote
deriving DecidableEq

/-- Supabase `.single()` / `.maybeSingle()` as destructured by the source:
`data` is the row when the filter matched exactly one row, null otherwise. -/
def rowSingle {α : Type} (l : List α) : Option α :=
  match l with
  | [a] => some a
  | _ => none

/-- The value every action returns: `{ error, success?, pollId? }`.
Fields the source omits are their JS-falsy defaults. -/
structure PollActionResult where
  error : Option String := none
  success : Bool := false
  pollId : Option String := none
deriving DecidableEq

/-- Shorthand for an error return. -/
def errRes (msg : String) : PollActionResult := { error := some msg }

/-- Which store calls fail during `submitVote`. -/
structure VoteFaults where
  pollFetchErr : Bool := false
  userErr : Bool := false
  dupCheckErr : Bool := false
  insertErr : Bool := false
  resultsErr : Bool := false
deriving DecidableEq

/-- Which store calls fail during `deletePoll`. -/
structure DeleteFaults where
  userErr : Bool := false
  pollFetchErr : Bool := false
  votesDeleteErr : Bool := false
  pollDeleteErr : Bool := false
deriving DecidableEq

/-- Which store calls fail during `updatePoll`. -/
structure UpdateFaults where
  userErr : Bool := false
  pollFetchErr : Bool := false
  updateErr : Bool := false
deriving DecidableEq

/-- Which store calls fail during `createPoll`. -/
structure CreateFaults where
  userErr : Bool := false
  insertErr : Bool := false
deriving DecidableEq

def noVoteFaults : VoteFaults := {}
def noDeleteFaults : DeleteFaults := {}
def noUpdateFaults : UpdateFaults := {}
def noCreateFaults : CreateFaults := {}

/-- The poll lookup `supabase.from("polls").select(...).eq("id", key).single()`
shared by `submitVote`, `deletePoll` and `updatePoll`; `errFlag` says the
store call failed. -/
def fetchPoll (db : DB) (errFlag : Bool) (key : String) : Option Poll :=
  if errFlag then none else rowSingle (db.polls.filter (fun p => p.id == key))

/-- The duplicate-vote pre-check of `submitVote`: only performed when
the caller is authenticated (`if (user) { ... }` in the source); the
error of the `maybeSingle` call is silently discarded, so a failed check
behaves like "no existing vote". -/
def dupVoteCheck (db : DB) (errFlag : Bool) (sid : String)
    (caller : Option String) : Option Vote :=
  match caller with
  | none => none
  | some uid =>
    if errFlag then none
    else rowSingle (db.votes.filter
      (fun v => v.poll_id == sid && v.user_id == some uid))

/-- The client-observed per-option vote counts computed (and then
discarded) by `submitVote` after a successful insert. -/
def tallyCounts (rs : List ℚ) : ℚ → Nat :=
  fun q => (rs.filter (fun r => r == q)).length

/-- `createPoll(formData)` from `poll-actions.ts`. `caller` is the
identity from `supabase.auth.getUser()` (`none` = not logged in);
`now` is `new Date().toISOString()`, `genId` the id the store assigns. -/
def createPoll (db : DB) (f : CreateFaults) (caller : Option String)
    (now genId : String) (fd : FormData) : PollActionResult × DB :=
  if badQuestion fd.question then (errRes "Please provide a valid question", db)
  else
    let options := normOptions fd.options
    if options.length < 2 then (errRes "Please provide at least two options", db)
    else if options.dedup.length != options.length then
      (errRes "All options must be unique", db)
    else if options.length > 20 then (errRes "Maximum of 20 options allowed", db)
    else if f.userErr then (errRes "Authentication failed", db)
    else
      match caller with
      | none => (errRes "You must be logged in to create a poll", db)
      | some uid =>
        if f.insertErr then (errRes "Failed to create poll", db)
        else
          let p : Poll :=
            { id := genId, user_id := uid,
              question := jsTrim (fd.question.getD ""),
              options := options.map jsTrim, created_at := now }
          ({ error := none, pollId := some genId },
           { db with polls := db.polls ++ [p] })

/-- `submitVote(pollId, optionIndex)` from `poll-actions.ts`. -/
def submitVote (db : DB) (f : VoteFaults) (caller : Option String)
    (now : String) (pollId : String) (optionIndex : ℚ) :
    PollActionResult × DB :=
  if jsTrim pollId == "" then (errRes "Invalid poll ID", db)
  else if optionIndex < 0 then (errRes "Invalid option selected", db)
  else
    let sid := jsTrim pollId
    if !isUuidString sid then (errRes "Invalid poll ID format", db)
    else
      match fetchPoll db f.pollFetchErr sid with
      | none => (errRes "Poll not found", db)
      | some poll =>
        if (poll.options.length : ℚ) ≤ optionIndex then
          (errRes "Invalid option selected", db)
        else if f.userErr then (errRes "Authentication failed", db)
        else
          match dupVoteCheck db f.dupCheckErr sid caller with
          | some _ => (errRes "You have already voted on this poll", db)
          | none =>
            if f.insertErr then (errRes "Failed to submit vote", db)
            else
              let newVote : Vote :=
                { poll_id := sid, user_id := caller,
                  option_index := optionIndex, created_at := now }
              let db1 : DB := { db with votes := db.votes ++ [newVote] }
              let results : Option (List ℚ) :=
                if f.resultsErr then none
                else some ((db1.votes.filter (fun v => v.poll_id == sid)).map
                  (fun v => v.option_index))
              let _voteCounts : ℚ → Nat :=
                match results with
                | none => fun _ => 0
                | some rs => tallyCounts rs
              ({ error := none, success := true }, db1)

/-- `deletePoll(id)` from `poll-actions.ts`. -/
def deletePoll (db : DB) (f : DeleteFaults) (caller : Option String)
    (id : String) : PollActionResult × DB :=
  if jsTrim id == "" then (errRes "Invalid poll ID", db)
  else
    let sid := jsTrim id
    if !isUuidString sid then (errRes "Invalid poll ID format", db)
    else if f.userErr then
      (errRes "You must be logged in to delete a poll", db)
    else
      match caller with
      | none => (errRes "You must be logged in to delete a poll", db)
      | some uid =>
        match fetchPoll db f.pollFetchErr sid with
        | none => (errRes "Poll not found", db)
        | some poll =>
          if poll.user_id != uid then
            (errRes "You do not have permission to delete this poll", db)
          else if f.votesDeleteErr then
            (errRes "Failed to delete poll votes", db)
          else
            let votes1 : List Vote := db.votes.filter (fun v => !(v.poll_id == sid))
            let db1 : DB := { db with votes := votes1 }
            if f.pollDeleteErr then (errRes "Failed to delete poll", db1)
            else
              let polls1 : List Poll :=
                db1.polls.filter (fun p => !(p.id == sid && p.user_id == uid))
              ({ error := none, success := true }, { db1 with polls := polls1 })

/-- `updatePoll(pollId, formData)` from `poll-actions.ts`. Note: unlike
`deletePoll` it performs no UUID-shape check, and unlike `createPoll`
it has no maximum-options check. -/
def updatePoll (db : DB) (f : UpdateFaults) (caller : Option String)
    (pollId : String) (fd : FormData) : PollActionResult × DB :=
  if jsTrim pollId == "" then (errRes "Invalid poll ID", db)
  else if badQuestion fd.question then
    (errRes "Please provide a valid question", db)
  else
    let options := normOptions fd.options
    if options.length < 2 then (errRes "Please provide at least two options", db)
    else if options.dedup.length != options.length then
      (errRes "All options must be unique", db)
    else if f.userErr then (errRes "Authentication failed", db)
    else
      match caller with
      | none => (errRes "You must be logged in to update a poll", db)
      | some uid =>
        match fetchPoll db f.pollFetchErr pollId with
        | none => (errRes "Poll not found", db)
        | some poll =>
          if poll.user_id != uid then
            (errRes "You do not have permission to update this poll", db)
          else if f.updateErr then (errRes "Failed to update poll", db)
          else
            let q : String := jsTrim (fd.question.getD "")
            let polls1 : List Poll := db.polls.map (fun p =>
              if p.id == pollId && p.user_id == uid then
                { p with question := q, options := options.map jsTrim }
              else p)
            ({ error := none }, { db with polls := polls1 })

/-- Outcome of one client form submission (`PollCreateForm` /
`login/page.tsx` submit handlers). -/
inductive SubmitOutcome
  | securityFailed
  | validationFailed
  | actionFailed
  | succeeded
deriving DecidableEq

/-- The client anti-forgery flow shared by `PollCreateForm.tsx` and
`login/page.tsx`: compare the presented token with the one in
`sessionStorage`; on mismatch stop (token kept); on client-validation
failure stop (token kept); if the server action errors, stop (token
kept); only on full success remove the token and store a fresh one.
`stored` is the `sessionStorage` slot (`none` when absent). -/
def clientSubmit (stored : Option String) (presented : String)
    (formValid : Bool) (actionErr : Bool) (freshToken : String) :
    SubmitOutcome × Option String :=
  if some presented != stored then (.securityFailed, stored)
  else if !formValid then (.validationFailed, stored)
  else if actionErr then (.actionFailed, stored)
  else (.succeeded, some freshToken)

/-! Concrete fixtures used by witnesses and counterexamples. -/

def pid0 : String := "11111111-1111-1111-1111-111111111111"

def poll0 : Poll :=
  { id := pid0, user_id := "alice", question := "Best color?",
    options := ["Red", "Blue"], created_at := "t0" }

def db0 : DB := { polls := [poll0], votes := [] }

def dbEmpty : DB := { polls := [], votes := [] }

def fdQ : FormData := { question := some "Q", options := [.str "a", .str "b"] }

def fd21 : FormData :=
  { question := some "Q",
    options := (List.range 21).map (fun i => .str ("o" ++ toString i)) }

def threeHalves : ℚ := ⟨3, 2, by decide, by decide⟩

/-- An anonymous vote already recorded on `poll0`. -/
def vAnon : Vote :=
  { poll_id := pid0, user_id := none, option_index := 0, created_at := "ta" }

/-- `db0` with one anonymous vote already present. -/
def dbAnonVoted : DB := { polls := [poll0], votes := [vAnon] }

/-! ## Helper lemmas -/

theorem rowSingle_mem {α : Type} {l : List α} {a : α}
    (h : rowSingle l = some a) : a ∈ l := by
  cases l with
  | nil => simp [rowSingle] at h
  | cons x t =>
    cases t with
    | nil =>
      simp only [rowSingle, Option.some.injEq] at h
      simp [h]
    | cons y t2 => simp [rowSingle] at h

theorem fetchPoll_some {db : DB} {e : Bool} {key : String} {p : Poll}
    (h : fetchPoll db e key = some p) : p ∈ db.polls ∧ p.id = key := by
  unfold fetchPoll at h
  cases e with
  | true => simp at h
  | false =>
    simp only [Bool.false_eq_true, if_false] at h
    have hm := rowSingle_mem h
    rw [List.mem_filter] at hm
    exact ⟨hm.1, by simpa using hm.2⟩

/-- `updatePoll` invoked by an authenticated non-owner on a well-formed
input: the result is NotFound or the permission error, and the store is
untouched. -/
theorem updatePoll_nonowner (db : DB) (uf : UpdateFaults) (u pollId : String)
    (fd : FormData)
    (hne : (jsTrim pollId == "") = false)
    (hq : badQuestion fd.question = false)
    (hlen : 2 ≤ (normOptions fd.options).length)
    (hdup : (normOptions fd.options).dedup.length =
      (normOptions fd.options).length)
    (hue : uf.userErr = false)
    (hown : ∀ p ∈ db.polls, p.id = pollId → p.user_id ≠ u) :
    ((updatePoll db uf (some u) pollId fd).1.error = some "Poll not found" ∨
      (updatePoll db uf (some u) pollId fd).1.error =
        some "You do not have permission to update this poll") ∧
    (updatePoll db uf (some u) pollId fd).2 = db := by
  have hlen2 : ¬ (normOptions fd.options).length < 2 := Nat.not_lt.mpr hlen
  unfold updatePoll
  simp only [hne, hq, hdup, hue, bne_self_eq_false, Bool.false_eq_true,
    if_false, hlen2]
  cases hfe : fetchPoll db uf.pollFetchErr pollId with
  | none => simp [errRes]
  | some p =>
    obtain ⟨hmem, hid⟩ := fetchPoll_some hfe
    have hneq : p.user_id ≠ u := hown p hmem hid
    have hb : (p.user_id != u) = true := bne_iff_ne.mpr hneq
    simp [hb, errRes]

/-- `deletePoll` invoked by an authenticated non-owner on a well-formed
id: the result is NotFound or the permission error, and the store is
untouched. -/
theorem deletePoll_nonowner (db : DB) (df : DeleteFaults) (u id : String)
    (hne : (jsTrim id == "") = false)
    (huu : isUuidString (jsTrim id) = true)
    (hde : df.userErr = false)
    (hown : ∀ p ∈ db.polls, p.id = jsTrim id → p.user_id ≠ u) :
    ((deletePoll db df (some u) id).1.error = some "Poll not found" ∨
      (deletePoll db df (some u) id).1.error =
        some "You do not have permission to delete this poll") ∧
    (deletePoll db df (some u) id).2 = db := by
  unfold deletePoll
  simp only [hne, huu, hde, Bool.not_true, Bool.false_eq_true, if_false]
  cases hfe : fetchPoll db df.pollFetchErr (jsTrim id) with
  | none => simp [errRes]
  | some p =>
    obtain ⟨hmem, hid⟩ := fetchPoll_some hfe
    have hneq : p.user_id ≠ u := hown p hmem hid
    have hb : (p.user_id != u) = true := bne_iff_ne.mpr hneq
    simp [hb, errRes]

/-! ## Claims -/

/-- C1: for every call to `updatePoll` or `deletePoll` in which the
caller's authenticated identity differs from the target poll's owner,
the operation fails with a Forbidden- or NotFound-class error and the
stored records are left completely unchanged. -/
theorem claim1_nonowner_update_delete_frame
    (db : DB) (uf : UpdateFaults) (df : DeleteFaults) (u idU idD : String)
    (fd : FormData)
    (hneU : (jsTrim idU == "") = false)
    (hq : badQuestion fd.question = false)
    (hlen : 2 ≤ (normOptions fd.options).length)
    (hdup : (normOptions fd.options).dedup.length =
      (normOptions fd.options).length)
    (hue : uf.userErr = false)
    (hneD : (jsTrim idD == "") = false)
    (huuD : isUuidString (jsTrim idD) = true)
    (hde : df.userErr = false)
    (hownU : ∀ p ∈ db.polls, p.id = idU → p.user_id ≠ u)
    (hownD : ∀ p ∈ db.polls, p.id = jsTrim idD → p.user_id ≠ u) :
    (((updatePoll db uf (some u) idU fd).1.error = some "Poll not found" ∨
      (updatePoll db uf (some u) idU fd).1.error =
        some "You do not have permission to update this poll") ∧
     (updatePoll db uf (some u) idU fd).2 = db) ∧
    (((deletePoll db df (some u) idD).1.error = some "Poll not found" ∨
      (deletePoll db df (some u) idD).1.error =
        some "You do not have permission to delete this poll") ∧
     (deletePoll db df (some u) idD).2 = db) :=
  ⟨updatePoll_nonowner db uf u idU fd hneU hq hlen hdup hue hownU,
   deletePoll_nonowner db df u idD hneD huuD hde hownD⟩

/-- Witness for C1: the concrete non-owner "bob" cannot update or delete
"alice"'s poll, and the store is unchanged. -/
theorem claim1_witness :
    (((updatePoll db0 noUpdateFaults (some "bob") pid0 fdQ).1.error =
        some "Poll not found" ∨
      (updatePoll db0 noUpdateFaults (some "bob") pid0 fdQ).1.error =
        some "You do not have permission to update this poll") ∧
     (updatePoll db0 noUpdateFaults (some "bob") pid0 fdQ).2 = db0) ∧
    (((deletePoll db0 noDeleteFaults (some "bob") pid0).1.error =
        some "Poll not found" ∨
      (deletePoll db0 noDeleteFaults (some "bob") pid0).1.error =
        some "You do not have permission to delete this poll") ∧
     (deletePoll db0 noDeleteFaults (some "bob") pid0).2 = db0) :=
  claim1_nonowner_update_delete_frame db0 noUpdateFaults noDeleteFaults
    "bob" pid0 pid0 fdQ (by decide) (by decide) (by decide) (by decide)
    (by decide) (by decide) (by decide) (by decide)
    (by decide) (by decide)

/-- `fetchPoll` only reads the `polls` table. -/
theorem fetchPoll_set_votes (db : DB) (vs : List Vote) (e : Bool)
    (k : String) : fetchPoll { db with votes := vs } e k = fetchPoll db e k :=
  rfl

/-- The successful path of `submitVote`: all checks pass, the vote is
appended, and the result is `{ error: null, success: true }`. -/
theorem submitVote_success (db : DB) (f : VoteFaults) (caller : Option String)
    (now pollId : String) (i : ℚ) (poll : Poll)
    (hne : (jsTrim pollId == "") = false)
    (hnn : ¬ i < 0)
    (huu : isUuidString (jsTrim pollId) = true)
    (hfe : fetchPoll db f.pollFetchErr (jsTrim pollId) = some poll)
    (hlt : ¬ (poll.options.length : ℚ) ≤ i)
    (hue : f.userErr = false)
    (hdup : dupVoteCheck db f.dupCheckErr (jsTrim pollId) caller = none)
    (hins : f.insertErr = false) :
    submitVote db f caller now pollId i =
      ({ error := none, success := true },
       { db with votes := db.votes ++
          [{ poll_id := jsTrim pollId, user_id := caller,
             option_index := i, created_at := now }] }) := by
  unfold submitVote
  simp only [hne, huu, hue, hins, hfe, hdup, Bool.not_true,
    Bool.false_eq_true, if_false, if_neg hnn, if_neg hlt]

/-- The duplicate branch of `submitVote`: an existing vote for the
authenticated caller stops the operation and leaves the store unchanged. -/
theorem submitVote_duplicate (db : DB) (f : VoteFaults)
    (caller : Option String) (now pollId : String) (i : ℚ) (poll : Poll)
    (v : Vote)
    (hne : (jsTrim pollId == "") = false)
    (hnn : ¬ i < 0)
    (huu : isUuidString (jsTrim pollId) = true)
    (hfe : fetchPoll db f.pollFetchErr (jsTrim pollId) = some poll)
    (hlt : ¬ (poll.options.length : ℚ) ≤ i)
    (hue : f.userErr = false)
    (hdup : dupVoteCheck db f.dupCheckErr (jsTrim pollId) caller = some v) :
    submitVote db f caller now pollId i =
      (errRes "You have already voted on this poll", db) := by
  unfold submitVote
  simp only [hne, huu, hue, hfe, hdup, Bool.not_true,
    Bool.false_eq_true, if_false, if_neg hnn, if_neg hlt]

/-- C2: an authenticated identity that casts two successive votes on
the same poll (with a valid option index) gets success then the
duplicate-vote error, and exactly one vote for the pair is stored. -/
theorem claim2_double_vote (db : DB) (u now1 now2 pid : String)
    (poll : Poll) (i : ℚ)
    (hne : (jsTrim pid == "") = false)
    (huu : isUuidString (jsTrim pid) = true)
    (hpoll : db.polls.filter (fun p => p.id == jsTrim pid) = [poll])
    (hi0 : ¬ i < 0)
    (hilt : ¬ (poll.options.length : ℚ) ≤ i)
    (hnov : db.votes.filter
      (fun v => v.poll_id == jsTrim pid && v.user_id == some u) = []) :
    (submitVote db noVoteFaults (some u) now1 pid i).1.error = none ∧
    (submitVote db noVoteFaults (some u) now1 pid i).1.success = true ∧
    (submitVote (submitVote db noVoteFaults (some u) now1 pid i).2
       noVoteFaults (some u) now2 pid i).1.error =
      some "You have already voted on this poll" ∧
    ((submitVote (submitVote db noVoteFaults (some u) now1 pid i).2
        noVoteFaults (some u) now2 pid i).2.votes.filter
      (fun v => v.poll_id == jsTrim pid && v.user_id == some u)).length = 1 := by
  have hfe : fetchPoll db false (jsTrim pid) = some poll := by
    simp [fetchPoll, hpoll, rowSingle]
  have hdup1 : dupVoteCheck db false (jsTrim pid) (some u) = none := by
    simp [dupVoteCheck, hnov, rowSingle]
  have h1 := submitVote_success db noVoteFaults (some u) now1 pid i poll
    hne hi0 huu hfe hilt rfl hdup1 rfl
  set newVote : Vote :=
    { poll_id := jsTrim pid, user_id := some u,
      option_index := i, created_at := now1 } with hnv
  have hfilter1 : ({ db with votes := db.votes ++ [newVote] } : DB).votes.filter
      (fun v => v.poll_id == jsTrim pid && v.user_id == some u) = [newVote] := by
    simp only [List.filter_append, hnov, List.nil_append]
    simp [hnv]
  have hfe2 : fetchPoll { db with votes := db.votes ++ [newVote] } false
      (jsTrim pid) = some poll := by
    rw [fetchPoll_set_votes]; exact hfe
  have hdup2 : dupVoteCheck { db with votes := db.votes ++ [newVote] } false
      (jsTrim pid) (some u) = some newVote := by
    simp [dupVoteCheck, hfilter1, rowSingle]
  have h2 := submitVote_duplicate
    { db with votes := db.votes ++ [newVote] } noVoteFaults (some u) now2 pid
    i poll newVote hne hi0 huu hfe2 hilt rfl hdup2
  refine ⟨?_, ?_, ?_, ?_⟩
  · rw [h1]
  · rw [h1]
  · have : (submitVote db noVoteFaults (some u) now1 pid i).2 =
        { db with votes := db.votes ++ [newVote] } := by rw [h1]
    rw [this, h2]; rfl
  · have : (submitVote db noVoteFaults (some u) now1 pid i).2 =
        { db with votes := db.votes ++ [newVote] } := by rw [h1]
    rw [this, h2]
    simp [hfilter1]

/-- Witness for C2: "carol" votes twice on `poll0`; the first call
succeeds, the second reports the duplicate, one vote is stored. -/
theorem claim2_witness :
    (submitVote db0 noVoteFaults (some "carol") "t1" pid0 0).1.error = none ∧
    (submitVote db0 noVoteFaults (some "carol") "t1" pid0 0).1.success = true ∧
    (submitVote (submitVote db0 noVoteFaults (some "carol") "t1" pid0 0).2
       noVoteFaults (some "carol") "t2" pid0 0).1.error =
      some "You have already voted on this poll" ∧
    ((submitVote (submitVote db0 noVoteFaults (some "carol") "t1" pid0 0).2
        noVoteFaults (some "carol") "t2" pid0 0).2.votes.filter
      (fun v => v.poll_id == jsTrim pid0 && v.user_id == some "carol")).length
      = 1 :=
  claim2_double_vote db0 "carol" "t1" "t2" pid0 poll0 0
    (by decide) (by decide) (by decide) (by decide) (by decide) (by decide)

/-- A negative `optionIndex` stops `submitVote` before any store access. -/
theorem submitVote_negative (db : DB) (f : VoteFaults)
    (caller : Option String) (now pollId : String) (i : ℚ)
    (hne : (jsTrim pollId == "") = false)
    (hneg : i < 0) :
    submitVote db f caller now pollId i =
      (errRes "Invalid option selected", db) := by
  unfold submitVote
  simp only [hne, Bool.false_eq_true, if_false, if_pos hneg]

/-- An `optionIndex` at or above the option count stops `submitVote`
after the poll fetch, with nothing recorded. -/
theorem submitVote_range_error (db : DB) (f : VoteFaults)
    (caller : Option String) (now pollId : String) (i : ℚ) (poll : Poll)
    (hne : (jsTrim pollId == "") = false)
    (hnn : ¬ i < 0)
    (huu : isUuidString (jsTrim pollId) = true)
    (hfe : fetchPoll db f.pollFetchErr (jsTrim pollId) = some poll)
    (hge : (poll.options.length : ℚ) ≤ i) :
    submitVote db f caller now pollId i =
      (errRes "Invalid option selected", db) := by
  unfold submitVote
  simp only [hne, huu, hfe, Bool.not_true, Bool.false_eq_true, if_false,
    if_neg hnn, if_pos hge]

/-- C3 counterexample: in `dbAnonVoted` an anonymous vote already exists
on `poll0`, yet a second anonymous `submitVote` is not refused with the
duplicate-vote error: it succeeds and a second vote is recorded. -/
theorem claim3_counterexample :
    (submitVote dbAnonVoted noVoteFaults none "t1" pid0 0).1.error = none ∧
    (submitVote dbAnonVoted noVoteFaults none "t1" pid0 0).1.success = true ∧
    (submitVote dbAnonVoted noVoteFaults none "t1" pid0 0).2.votes.length = 2
    := by decide

/-- C3 (amended): the option-range check is performed for every caller,
authenticated or anonymous, but the duplicate-vote check is performed
only for authenticated callers: an anonymous caller is never checked
against existing votes, so with all other checks passing the vote is
recorded unconditionally, however many anonymous votes the poll already
has. -/
theorem claim3_anon_dup_bypass (db : DB) (now pid : String) (poll : Poll)
    (i : ℚ) (caller : Option String)
    (hne : (jsTrim pid == "") = false)
    (huu : isUuidString (jsTrim pid) = true)
    (hpoll : db.polls.filter (fun p => p.id == jsTrim pid) = [poll]) :
    ((¬ i < 0 → (poll.options.length : ℚ) ≤ i →
      submitVote db noVoteFaults caller now pid i =
        (errRes "Invalid option selected", db))) ∧
    (¬ i < 0 → ¬ (poll.options.length : ℚ) ≤ i →
      (submitVote db noVoteFaults none now pid i).1.error = none ∧
      (submitVote db noVoteFaults none now pid i).2.votes =
        db.votes ++
          [{ poll_id := jsTrim pid, user_id := none,
             option_index := i, created_at := now }]) := by
  have hfe : fetchPoll db false (jsTrim pid) = some poll := by
    simp [fetchPoll, hpoll, rowSingle]
  constructor
  · intro hnn hge
    exact submitVote_range_error db noVoteFaults caller now pid i poll
      hne hnn huu hfe hge
  · intro hnn hlt
    have h := submitVote_success db noVoteFaults none now pid i poll
      hne hnn huu hfe hlt rfl rfl rfl
    rw [h]
    exact ⟨rfl, rfl⟩

/-- Witness for C3 (amended): on `dbAnonVoted`, an out-of-range index 5
is refused for the anonymous caller, while index 0 is recorded as a
second anonymous vote. -/
theorem claim3_witness :
    (submitVote dbAnonVoted noVoteFaults none "t1" pid0 5 =
      (errRes "Invalid option selected", dbAnonVoted)) ∧
    ((submitVote dbAnonVoted noVoteFaults none "t1" pid0 0).1.error = none ∧
     (submitVote dbAnonVoted noVoteFaults none "t1" pid0 0).2.votes =
       dbAnonVoted.votes ++
         [{ poll_id := jsTrim pid0, user_id := none,
            option_index := 0, created_at := "t1" }]) :=
  ⟨(claim3_anon_dup_bypass dbAnonVoted "t1" pid0 poll0 5 none
      (by decide) (by decide) (by decide)).1 (by decide) (by decide),
   (claim3_anon_dup_bypass dbAnonVoted "t1" pid0 poll0 0 none
      (by decide) (by decide) (by decide)).2 (by decide) (by decide)⟩

/-- C7 counterexample: the fractional index 3/2 on the two-option
`poll0` is not refused with the invalid-option error: the vote is
recorded with `option_index = 3/2`. -/
theorem claim7_counterexample :
    (submitVote db0 noVoteFaults none "t1" pid0 threeHalves).1.error = none ∧
    (submitVote db0 noVoteFaults none "t1" pid0 threeHalves).2.votes =
      [{ poll_id := pid0, user_id := none, option_index := threeHalves,
         created_at := "t1" }] := by decide

/-- C7 (amended): `submitVote` fails with the invalid-option error when
`optionIndex` is negative or at least the referenced poll's option
count, recording nothing; but integrality is not checked: any index in
range, fractional or not, passes the check and is recorded verbatim. -/
theorem claim7_option_range (db : DB) (now pid : String) (poll : Poll)
    (i : ℚ) (caller : Option String)
    (hne : (jsTrim pid == "") = false)
    (huu : isUuidString (jsTrim pid) = true)
    (hpoll : db.polls.filter (fun p => p.id == jsTrim pid) = [poll]) :
    (i < 0 → submitVote db noVoteFaults caller now pid i =
      (errRes "Invalid option selected", db)) ∧
    (¬ i < 0 → (poll.options.length : ℚ) ≤ i →
      submitVote db noVoteFaults caller now pid i =
        (errRes "Invalid option selected", db)) ∧
    (¬ i < 0 → ¬ (poll.options.length : ℚ) ≤ i →
      (submitVote db noVoteFaults none now pid i).2.votes =
        db.votes ++
          [{ poll_id := jsTrim pid, user_id := none,
             option_index := i, created_at := now }]) := by
  have hfe : fetchPoll db false (jsTrim pid) = some poll := by
    simp [fetchPoll, hpoll, rowSingle]
  refine ⟨?_, ?_, ?_⟩
  · intro hneg
    exact submitVote_negative db noVoteFaults caller now pid i hne hneg
  · intro hnn hge
    exact submitVote_range_error db noVoteFaults caller now pid i poll
      hne hnn huu hfe hge
  · intro hnn hlt
    have h := submitVote_success db noVoteFaults none now pid i poll
      hne hnn huu hfe hlt rfl rfl rfl
    rw [h]

/-- Witness for C7 (amended): on `poll0`, index -1 and index 5 are
refused, and the fractional in-range index 3/2 is recorded. -/
theorem claim7_witness :
    (submitVote db0 noVoteFaults none "t1" pid0 (-1) =
      (errRes "Invalid option selected", db0)) ∧
    (submitVote db0 noVoteFaults none "t1" pid0 5 =
      (errRes "Invalid option selected", db0)) ∧
    ((submitVote db0 noVoteFaults none "t1" pid0 threeHalves).2.votes =
      db0.votes ++
        [{ poll_id := jsTrim pid0, user_id := none,
           option_index := threeHalves, created_at := "t1" }]) :=
  ⟨(claim7_option_range db0 "t1" pid0 poll0 (-1) none
      (by decide) (by decide) (by decide)).1 (by decide),
   (claim7_option_range db0 "t1" pid0 poll0 5 none
      (by decide) (by decide) (by decide)).2.1 (by decide) (by decide),
   (claim7_option_range db0 "t1" pid0 poll0 threeHalves none
      (by decide) (by decide) (by decide)).2.2 (by decide) (by decide)⟩

/-- C4: when the owner deletes a poll, the votes are deleted before the
poll; a failing vote deletion surfaces its error and leaves the store
completely unchanged (the poll is not deleted); a failing poll deletion
happens only after the votes were removed; on full success both the
votes and the poll are gone. -/
theorem claim4_cascade_delete (db : DB) (u id : String) (poll : Poll)
    (hne : (jsTrim id == "") = false)
    (huu : isUuidString (jsTrim id) = true)
    (hpoll : db.polls.filter (fun p => p.id == jsTrim id) = [poll])
    (hown : poll.user_id = u) :
    (deletePoll db { votesDeleteErr := true } (some u) id =
      (errRes "Failed to delete poll votes", db)) ∧
    (deletePoll db { pollDeleteErr := true } (some u) id =
      (errRes "Failed to delete poll",
       { db with votes :=
          db.votes.filter (fun v => !(v.poll_id == jsTrim id)) })) ∧
    (deletePoll db noDeleteFaults (some u) id =
      ({ error := none, success := true },
       { polls :=
          db.polls.filter (fun p => !(p.id == jsTrim id && p.user_id == u)),
         votes := db.votes.filter (fun v => !(v.poll_id == jsTrim id)) })) := by
  have hb : (poll.user_id != u) = false := by simp [hown]
  have hfe : fetchPoll db false (jsTrim id) = some poll := by
    simp [fetchPoll, hpoll, rowSingle]
  refine ⟨?_, ?_, ?_⟩ <;>
    simp [deletePoll, hne, huu, hfe, hb, noDeleteFaults]

/-- Witness for C4: owner "alice" deleting `poll0` under each fault
configuration. -/
theorem claim4_witness :
    (deletePoll db0 { votesDeleteErr := true } (some "alice") pid0 =
      (errRes "Failed to delete poll votes", db0)) ∧
    (deletePoll db0 { pollDeleteErr := true } (some "alice") pid0 =
      (errRes "Failed to delete poll",
       { db0 with votes :=
          db0.votes.filter (fun v => !(v.poll_id == jsTrim pid0)) })) ∧
    (deletePoll db0 noDeleteFaults (some "alice") pid0 =
      ({ error := none, success := true },
       { polls := db0.polls.filter
          (fun p => !(p.id == jsTrim pid0 && p.user_id == "alice")),
         votes :=
          db0.votes.filter (fun v => !(v.poll_id == jsTrim pid0)) })) :=
  claim4_cascade_delete db0 "alice" pid0 poll0 (by decide) (by decide)
    (by decide) (by decide)

/-- C5 counterexample: a 21-option update is not refused: invoked by the
owner on `poll0`, `updatePoll` succeeds and stores all 21 options,
where the claim requires the TooManyOptions failure with nothing
persisted. -/
theorem claim5_counterexample :
    (updatePoll db0 noUpdateFaults (some "alice") pid0 fd21).1.error = none ∧
    ((updatePoll db0 noUpdateFaults (some "alice") pid0 fd21).2.polls.map
      (fun p => p.options.length)) = [21] := by decide

/-- C5 (amended): `createPoll` refuses any input with more than 20
non-empty trimmed options and persists nothing, but `updatePoll` has no
such check: the same over-long input, submitted by the owner, passes
validation and is persisted. -/
theorem claim5_max_options_create_only (db : DB) (cf : CreateFaults)
    (caller : Option String) (now genId : String) (fd : FormData)
    (u pid : String) (poll : Poll)
    (hq : badQuestion fd.question = false)
    (hlen : 2 ≤ (normOptions fd.options).length)
    (hdup : (normOptions fd.options).dedup.length =
      (normOptions fd.options).length)
    (hgt : 20 < (normOptions fd.options).length)
    (hne : (jsTrim pid == "") = false)
    (hpoll : db.polls.filter (fun p => p.id == pid) = [poll])
    (hown : poll.user_id = u) :
    createPoll db cf caller now genId fd =
      (errRes "Maximum of 20 options allowed", db) ∧
    ((updatePoll db noUpdateFaults (some u) pid fd).1.error = none ∧
     (updatePoll db noUpdateFaults (some u) pid fd).2.polls =
       db.polls.map (fun p =>
         if p.id == pid && p.user_id == u then
           { p with
             question := jsTrim (fd.question.getD ""),
             options := (normOptions fd.options).map jsTrim }
         else p)) := by
  have hlen2 : ¬ (normOptions fd.options).length < 2 := Nat.not_lt.mpr hlen
  have hb : (poll.user_id != u) = false := by simp [hown]
  have hfe : fetchPoll db false pid = some poll := by
    simp [fetchPoll, hpoll, rowSingle]
  refine ⟨?_, ?_, ?_⟩
  · simp [createPoll, hq, hlen2, hdup, hgt]
  · simp [updatePoll, hne, hq, hlen2, hdup, hfe, hb, noUpdateFaults]
  · simp [updatePoll, hne, hq, hlen2, hdup, hfe, hb, noUpdateFaults]

/-- Witness for C5 (amended): `fd21` (21 distinct options) is refused by
`createPoll` but accepted and persisted by `updatePoll` on `poll0`. -/
theorem claim5_witness :
    createPoll db0 noCreateFaults (some "alice") "t1" "g1" fd21 =
      (errRes "Maximum of 20 options allowed", db0) ∧
    ((updatePoll db0 noUpdateFaults (some "alice") pid0 fd21).1.error = none ∧
     (updatePoll db0 noUpdateFaults (some "alice") pid0 fd21).2.polls =
       db0.polls.map (fun p =>
         if p.id == pid0 && p.user_id == "alice" then
           { p with
             question := jsTrim (fd21.question.getD ""),
             options := (normOptions fd21.options).map jsTrim }
         else p)) :=
  claim5_max_options_create_only db0 noCreateFaults (some "alice") "t1" "g1"
    fd21 "alice" pid0 poll0 (by decide) (by decide) (by decide) (by decide)
    (by decide) (by decide) (by decide)

/-- C6 counterexample: `updatePoll` on the malformed id "not-a-uuid"
does not fail with the malformed-id error the claim requires: the id
reaches the store lookup and the call returns the store's NotFound. -/
theorem claim6_counterexample :
    (updatePoll dbEmpty noUpdateFaults (some "alice") "not-a-uuid" fdQ).1.error
      = some "Poll not found" ∧
    (updatePoll dbEmpty noUpdateFaults (some "alice") "not-a-uuid" fdQ).1.error
      ≠ some "Invalid poll ID format" := by decide

/-- C6 (amended): `deletePoll` rejects every id that fails the UUID
shape check with the malformed-id error before touching the store, for
any caller and any fault configuration; `updatePoll` performs no UUID
check, so the same malformed id flows to the store lookup and surfaces
as NotFound when no poll matches it. -/
theorem claim6_uuid_check_delete_only (db : DB) (df : DeleteFaults)
    (uf : UpdateFaults) (caller : Option String) (u id : String)
    (fd : FormData)
    (hne : (jsTrim id == "") = false)
    (hbad : isUuidString (jsTrim id) = false)
    (hq : badQuestion fd.question = false)
    (hlen : 2 ≤ (normOptions fd.options).length)
    (hdup : (normOptions fd.options).dedup.length =
      (normOptions fd.options).length)
    (hue : uf.userErr = false)
    (hnomatch : db.polls.filter (fun p => p.id == id) = []) :
    deletePoll db df caller id = (errRes "Invalid poll ID format", db) ∧
    updatePoll db uf (some u) id fd = (errRes "Poll not found", db) := by
  have hlen2 : ¬ (normOptions fd.options).length < 2 := Nat.not_lt.mpr hlen
  have hfen : fetchPoll db uf.pollFetchErr id = none := by
    cases h : uf.pollFetchErr <;> simp [fetchPoll, hnomatch, rowSingle]
  constructor
  · simp [deletePoll, hne, hbad]
  · simp [updatePoll, hne, hq, hlen2, hdup, hue, hfen]

/-- Witness for C6 (amended): with the malformed id "not-a-uuid",
`deletePoll` reports the malformed-id error while `updatePoll` reports
NotFound after consulting the (empty) store. -/
theorem claim6_witness :
    deletePoll dbEmpty noDeleteFaults (some "alice") "not-a-uuid" =
      (errRes "Invalid poll ID format", dbEmpty) ∧
    updatePoll dbEmpty noUpdateFaults (some "alice") "not-a-uuid" fdQ =
      (errRes "Poll not found", dbEmpty) :=
  claim6_uuid_check_delete_only dbEmpty noDeleteFaults noUpdateFaults
    (some "alice") "alice" "not-a-uuid" fdQ (by decide) (by decide)
    (by decide) (by decide) (by decide) (by decide) (by decide)

/-- C8 counterexample: for the same caller "bob" and the same id, the
result when the poll exists under another owner differs from the result
when no such poll exists, so existence/ownership is observable. -/
theorem claim8_counterexample :
    (deletePoll db0 noDeleteFaults (some "bob") pid0).1 ≠
    (deletePoll dbEmpty noDeleteFaults (some "bob") pid0).1 := by decide

/-- C8 (amended): wrong-owner failures are distinguishable from genuine
not-found: on a poll owned by someone else, `deletePoll`/`updatePoll`
return dedicated permission errors, while on an absent poll they return
"Poll not found"; the two error values differ. -/
theorem claim8_distinct_errors (dbP dbA : DB) (u id : String) (poll : Poll)
    (fd : FormData)
    (htrim : jsTrim id = id)
    (hne : (jsTrim id == "") = false)
    (huu : isUuidString (jsTrim id) = true)
    (hq : badQuestion fd.question = false)
    (hlen : 2 ≤ (normOptions fd.options).length)
    (hdup : (normOptions fd.options).dedup.length =
      (normOptions fd.options).length)
    (hexists : dbP.polls.filter (fun p => p.id == id) = [poll])
    (hown : poll.user_id ≠ u)
    (habsent : dbA.polls.filter (fun p => p.id == id) = []) :
    ((deletePoll dbP noDeleteFaults (some u) id).1.error =
        some "You do not have permission to delete this poll" ∧
      (deletePoll dbA noDeleteFaults (some u) id).1.error =
        some "Poll not found" ∧
      (deletePoll dbP noDeleteFaults (some u) id).1 ≠
        (deletePoll dbA noDeleteFaults (some u) id).1) ∧
    ((updatePoll dbP noUpdateFaults (some u) id fd).1.error =
        some "You do not have permission to update this poll" ∧
      (updatePoll dbA noUpdateFaults (some u) id fd).1.error =
        some "Poll not found" ∧
      (updatePoll dbP noUpdateFaults (some u) id fd).1 ≠
        (updatePoll dbA noUpdateFaults (some u) id fd).1) := by
  have hlen2 : ¬ (normOptions fd.options).length < 2 := Nat.not_lt.mpr hlen
  have hb : (poll.user_id != u) = true := bne_iff_ne.mpr hown
  have hne2 : ¬ id = "" := by
    rw [← htrim]; exact fun h => by simp [h] at hne
  have huu2 : isUuidString id = true := by rw [← htrim]; exact huu
  have hfeP : fetchPoll dbP false id = some poll := by
    simp [fetchPoll, hexists, rowSingle]
  have hfeA : fetchPoll dbA false id = none := by
    simp [fetchPoll, habsent, rowSingle]
  have hdel : (deletePoll dbP noDeleteFaults (some u) id).1.error =
      some "You do not have permission to delete this poll" := by
    simp [deletePoll, hne, huu, htrim, hne2, huu2, hfeP, hb, noDeleteFaults,
      errRes]
  have hdelA : (deletePoll dbA noDeleteFaults (some u) id).1.error =
      some "Poll not found" := by
    simp [deletePoll, hne, huu, htrim, hne2, huu2, hfeA, noDeleteFaults,
      errRes]
  have hupd : (updatePoll dbP noUpdateFaults (some u) id fd).1.error =
      some "You do not have permission to update this poll" := by
    simp [updatePoll, hne, hne2, hq, hlen2, hdup, hfeP, hb, noUpdateFaults,
      htrim, errRes]
  have hupdA : (updatePoll dbA noUpdateFaults (some u) id fd).1.error =
      some "Poll not found" := by
    simp [updatePoll, hne, hne2, hq, hlen2, hdup, hfeA, noUpdateFaults,
      htrim, errRes]
  refine ⟨⟨hdel, hdelA, ?_⟩, ⟨hupd, hupdA, ?_⟩⟩
  · intro h
    have he := congrArg PollActionResult.error h
    rw [hdel, hdelA] at he
    exact absurd he (by decide)
  · intro h
    have he := congrArg PollActionResult.error h
    rw [hupd, hupdA] at he
    exact absurd he (by decide)

/-- Witness for C8 (amended): "bob" against `poll0` (owned by "alice")
versus the empty store. -/
theorem claim8_witness :
    ((deletePoll db0 noDeleteFaults (some "bob") pid0).1.error =
        some "You do not have permission to delete this poll" ∧
      (deletePoll dbEmpty noDeleteFaults (some "bob") pid0).1.error =
        some "Poll not found" ∧
      (deletePoll db0 noDeleteFaults (some "bob") pid0).1 ≠
        (deletePoll dbEmpty noDeleteFaults (some "bob") pid0).1) ∧
    ((updatePoll db0 noUpdateFaults (some "bob") pid0 fdQ).1.error =
        some "You do not have permission to update this poll" ∧
      (updatePoll dbEmpty noUpdateFaults (some "bob") pid0 fdQ).1.error =
        some "Poll not found" ∧
      (updatePoll db0 noUpdateFaults (some "bob") pid0 fdQ).1 ≠
        (updatePoll dbEmpty noUpdateFaults (some "bob") pid0 fdQ).1) :=
  claim8_distinct_errors db0 dbEmpty "bob" pid0 poll0 fdQ (by decide)
    (by decide) (by decide) (by decide) (by decide) (by decide) (by decide)
    (by decide) (by decide)

/-- C9 counterexample: the stored token survives a failed verification
(first conjunct) and survives a verified-but-failed submission (second);
consequently the very token value that already passed verification once
verifies successfully again (third). -/
theorem claim9_counterexample :
    (clientSubmit (some "t") "x" true false "n").2 = some "t" ∧
    (clientSubmit (some "t") "t" true true "n").2 = some "t" ∧
    (clientSubmit (some "t") "t" true false "n").1 =
      SubmitOutcome.succeeded := by decide

/-- C9 (amended): the client rotates the stored anti-forgery token only
after a fully successful submission (verification, client validation and
the server action all succeed); after a failed verification, a failed
validation, or a failed server action the stored token is left in place
unchanged, so it can be presented and verified again. -/
theorem claim9_rotation_only_on_success (stored : Option String)
    (presented : String) (formValid actionErr : Bool) (fresh : String) :
    (clientSubmit stored presented formValid actionErr fresh).2 =
      (if some presented == stored && formValid && !actionErr then some fresh
       else stored) := by
  unfold clientSubmit
  cases h : (some presented == stored) <;>
    cases formValid <;> cases actionErr <;> simp [bne, h]

/-- C10: whenever the vote insert inside `submitVote` succeeds, the call
returns `{ error: null, success: true }` regardless of whether the
subsequent fetch of vote results fails, and the returned value is
identical in both cases (the recomputed tally is never part of it). -/
theorem claim10_insert_success_ignores_results_fetch (db : DB)
    (caller : Option String) (now pid : String) (poll : Poll) (i : ℚ)
    (b : Bool)
    (hne : (jsTrim pid == "") = false)
    (hnn : ¬ i < 0)
    (huu : isUuidString (jsTrim pid) = true)
    (hpoll : db.polls.filter (fun p => p.id == jsTrim pid) = [poll])
    (hlt : ¬ (poll.options.length : ℚ) ≤ i)
    (hdup : dupVoteCheck db false (jsTrim pid) caller = none) :
    (submitVote db { resultsErr := b } caller now pid i).1 =
      { error := none, success := true } ∧
    submitVote db { resultsErr := b } caller now pid i =
      submitVote db noVoteFaults caller now pid i := by
  have hfe : fetchPoll db false (jsTrim pid) = some poll := by
    simp [fetchPoll, hpoll, rowSingle]
  have h1 := submitVote_success db { resultsErr := b } caller now pid i poll
    hne hnn huu hfe hlt rfl hdup rfl
  have h2 := submitVote_success db noVoteFaults caller now pid i poll
    hne hnn huu hfe hlt rfl hdup rfl
  rw [h1, h2]
  exact ⟨rfl, rfl⟩

/-- Witness for C10: "dave" votes on `poll0` with the results fetch
failing; the call still returns success and equals the fault-free run. -/
theorem claim10_witness :
    (submitVote db0 { resultsErr := true } (some "dave") "t1" pid0 0).1 =
      { error := none, success := true } ∧
    submitVote db0 { resultsErr := true } (some "dave") "t1" pid0 0 =
      submitVote db0 noVoteFaults (some "dave") "t1" pid0 0 :=
  claim10_insert_success_ignores_results_fetch db0 (some "dave") "t1" pid0
    poll0 0 true (by decide) (by decide) (by decide) (by decide) (by decide)
    (by decide)

end AlxPolly
